import Mathlib

/-
  Verification development for the Kat7 dual-guide tumor pipeline
  (dual_guide_parsing.py and dual_guide_aggregate.py).

  Strings from the Python code are modelled as `List Char`; text streams
  (gzip-opened FASTQ files read line by line) as `List (List Char)`,
  where `readline` returns the head line (or the empty string at EOF)
  and advances the stream.  Pandas data frames are modelled as lists of
  structures, one structure field per column.
-/

/-- Character-wise Watson-Crick complement, from the dictionary
`temp_dic` in `find_reverse_complementary` (dual_guide_parsing.py,
lines 32-35); `temp_dic.get(x, x)` leaves unknown characters
unchanged. -/
def complementChar (c : Char) : Char :=
  if c = 'A' then 'T' else if c = 'G' then 'C'
  else if c = 'T' then 'A' else if c = 'C' then 'G'
  else if c = 'N' then 'N'
  else if c = 'a' then 't' else if c = 'g' then 'c'
  else if c = 't' then 'a' else if c = 'c' then 'g'
  else if c = 'n' then 'n'
  else c

/-- `''.join(temp_dic.get(x, x) for x in input_string[::-1])`
(dual_guide_parsing.py, line 37), on the character-list model. -/
def revcompL (l : List Char) : List Char :=
  l.reverse.map complementChar

/-- `find_reverse_complementary` (dual_guide_parsing.py, lines 27-37). -/
def find_reverse_complementary (s : String) : String :=
  String.mk (revcompL s.data)

/-- The characters Python's `str.rstrip()` (no argument) removes:
ASCII whitespace, as produced in FASTQ text lines. -/
def pyIsSpace (c : Char) : Bool :=
  c == ' ' || c == '\t' || c == '\n' || c == '\r' || c == '\x0b' || c == '\x0c'

/-- Python `line.rstrip()`: drop trailing whitespace. -/
def rstrip (l : List Char) : List Char :=
  (l.reverse.dropWhile pyIsSpace).reverse

/- Regex patterns (dual_guide_parsing.py, lines 61-63):
     temp_pattern1 = regex.compile('TAGTT(.{16})TATGG(.{16,21})GTTTA')
     temp_pattern2 = regex.compile('TGTTG(.{16,21})GTTTG')
   `.search` finds the leftmost starting position at which the pattern
   matches; at a given position the bounded quantifier `.{16,21}` is
   greedy, trying the longest capture first and backtracking down. -/

/-- Capture lengths tried for `.{16,21}`, greedy (longest first). -/
def greedyLens : List Nat := [21, 20, 19, 18, 17, 16]

/-- Match `TAGTT(.{16})TATGG(.{L})GTTTA` at position `p` of `s`, for a
fixed tag length `L`; returns (barcode, tag1) on success. -/
def matchPattern1AtLen (s : List Char) (p L : Nat) : Option (List Char × List Char) :=
  let r0 := s.drop p
  if ("TAGTT".data).isPrefixOf r0 then
    let r1 := r0.drop 5
    let bc := r1.take 16
    if bc.length = 16 then
      let r2 := r1.drop 16
      if ("TATGG".data).isPrefixOf r2 then
        let r3 := r2.drop 5
        let t1 := r3.take L
        if t1.length = L then
          if ("GTTTA".data).isPrefixOf (r3.drop L) then some (bc, t1) else none
        else none
      else none
    else none
  else none

/-- Match pattern 1 at position `p`, greedy over the tag length. -/
def matchPattern1At (s : List Char) (p : Nat) : Option (List Char × List Char) :=
  greedyLens.findSome? (matchPattern1AtLen s p)

/-- `temp_pattern1.search(s)`: leftmost match of
`TAGTT(.{16})TATGG(.{16,21})GTTTA`. -/
def searchPattern1 (s : List Char) : Option (List Char × List Char) :=
  (List.range (s.length + 1)).findSome? (matchPattern1At s)

/-- Match `TGTTG(.{L})GTTTG` at position `p` of `s`. -/
def matchPattern2AtLen (s : List Char) (p L : Nat) : Option (List Char) :=
  let r0 := s.drop p
  if ("TGTTG".data).isPrefixOf r0 then
    let r1 := r0.drop 5
    let t2 := r1.take L
    if t2.length = L then
      if ("GTTTG".data).isPrefixOf (r1.drop L) then some t2 else none
    else none
  else none

/-- Match pattern 2 at position `p`, greedy over the tag length. -/
def matchPattern2At (s : List Char) (p : Nat) : Option (List Char) :=
  greedyLens.findSome? (matchPattern2AtLen s p)

/-- `temp_pattern2.search(s)`: leftmost match of `TGTTG(.{16,21})GTTTG`. -/
def searchPattern2 (s : List Char) : Option (List Char) :=
  (List.range (s.length + 1)).findSome? (matchPattern2At s)

example :
    searchPattern1 ("TAGTTAAAAAAAAAAAAAAAATATGGCCCCCCCCCCCCCCCCGTTTA".data) =
      some ("AAAAAAAAAAAAAAAA".data, "CCCCCCCCCCCCCCCC".data) := by decide

example :
    searchPattern2 ("TGTTGGGGGGGGGGGGGGGGGGTTTG".data) =
      some ("GGGGGGGGGGGGGGGG".data) := by decide

example : searchPattern2 ("TGTTGGGGGGGGGGGGGGGGGGTTT".data) = none := by decide

example : revcompL ("ACGTn".data) = "nACGT".data := by decide

/- ---------------------------------------------------------------------
   The streaming paired-read extraction loop (dual_guide_parsing.py,
   `main`, lines 65-116).
--------------------------------------------------------------------- -/

/-- One record collected by the loop (one future row of `Final_df`,
before the `Sample_ID` and `gRNA_combination` columns are added). -/
structure ExtractedRec where
  gRNA1 : List Char
  gRNA2 : List Char
  Clonal_barcode : List Char
  Read_ID : List Char
  label : List Char
deriving DecidableEq, Repr

/-- Loop state: the three counters and the collected records, in
append order (the parallel lists gRNA1_list_out, ..., label_list). -/
structure ParseState where
  total_reads : Nat
  extracted_reads : Nat
  matched_reads : Nat
  recs : List ExtractedRec
deriving DecidableEq, Repr

/-- The `i`-th line a sequence of `readline` calls would return from a
stream positioned at `s` (the empty string once the stream is
exhausted). -/
def streamLine (s : List (List Char)) (i : Nat) : List Char :=
  (s.drop i).headD []

/-- Body of one loop iteration once `read_id` is known non-empty
(dual_guide_parsing.py, lines 86-106): bump `total_reads`, search both
patterns, and on a double match record barcode, tags, read id and the
classification label, bumping `extracted_reads` and (for `Expected`)
`matched_reads`. -/
def processRecord (gRNA1_list gRNA2_list : List (List Char))
    (read_id seq1 seq2 : List Char) (st : ParseState) : ParseState :=
  let st := { st with total_reads := st.total_reads + 1 }
  match searchPattern1 seq1, searchPattern2 seq2 with
  | some (clonal_barcode, gRNA1), some gRNA2 =>
      if gRNA1 ∈ gRNA1_list ∧ gRNA2 ∈ gRNA2_list then
        { st with
            extracted_reads := st.extracted_reads + 1
            matched_reads := st.matched_reads + 1
            recs := st.recs ++
              [⟨gRNA1, gRNA2, clonal_barcode, read_id, "Expected".data⟩] }
      else
        { st with
            extracted_reads := st.extracted_reads + 1
            recs := st.recs ++
              [⟨gRNA1, gRNA2, clonal_barcode, read_id, "Unexpected".data⟩] }
  | _, _ => st

/-- The `while read_id:` loop (dual_guide_parsing.py, lines 74-116).
Each iteration consumes four lines from each stream: the R1 id line
(rstripped) is the loop condition, the R1 sequence line is `seq1`
(rstripped), the R2 sequence line is reverse-complemented into `seq2`,
and the separator and quality lines are skipped. -/
def parseLoop (gRNA1_list gRNA2_list : List (List Char))
    (s1 s2 : List (List Char)) (st : ParseState) : ParseState :=
  if rstrip (streamLine s1 0) = [] then st
  else
    parseLoop gRNA1_list gRNA2_list (s1.drop 4) (s2.drop 4)
      (processRecord gRNA1_list gRNA2_list (rstrip (streamLine s1 0))
        (rstrip (streamLine s1 1))
        (revcompL (rstrip (streamLine s2 1))) st)
termination_by s1.length
decreasing_by
  rename_i h
  cases s1 with
  | nil => exact absurd (by simp [streamLine, rstrip]) h
  | cons a t => simp [List.length_drop]; omega

/-- One row of `Final_df` (dual_guide_parsing.py, lines 124-132). -/
structure FinalRow where
  gRNA1 : List Char
  gRNA2 : List Char
  Clonal_barcode : List Char
  Read_ID : List Char
  Sample_ID : List Char
  Class : List Char
  gRNA_combination : List Char
deriving DecidableEq, Repr

/-- Build `Final_df` from the collected records: add the constant
`Sample_ID` column and `gRNA_combination = gRNA1 + '_' + gRNA2`
(dual_guide_parsing.py, lines 124-132). -/
def mkFinalDf (sample_id : List Char) (recs : List ExtractedRec) : List FinalRow :=
  recs.map (fun r =>
    ⟨r.gRNA1, r.gRNA2, r.Clonal_barcode, r.Read_ID, sample_id, r.label,
      r.gRNA1 ++ '_' :: r.gRNA2⟩)

/-- `Final_df[Final_df.Class == 'Unexpected']` (line 136): the rows
written to `Unexpected_reads.csv`. -/
def unexpectedRows (df : List FinalRow) : List FinalRow :=
  df.filter (fun r => r.Class = "Unexpected".data)

/-- `Final_df[Final_df.Class != 'Unexpected']` (line 140): the rows
written to `Intermediate_df.csv`, the second output set. -/
def intermediateRows (df : List FinalRow) : List FinalRow :=
  df.filter (fun r => r.Class ≠ "Unexpected".data)

/-- `expected_df = Final_df[Final_df.Class != 'Unexpected']`
(line 143): the rows fed to the bartender partition step. -/
def expectedDf (df : List FinalRow) : List FinalRow :=
  df.filter (fun r => r.Class ≠ "Unexpected".data)

/-- Lexicographic (code-point) order on strings, the order in which
pandas `groupby` enumerates string group keys. -/
def lexLe (a b : List Char) : Prop :=
  List.Lex (fun c d => c.val < d.val) a b ∨ a = b

instance : DecidableRel lexLe := fun a b => by
  unfold lexLe; infer_instance

/-- The distinct `gRNA_combination` keys of the expected rows, in the
sorted order pandas `groupby` iterates them (line 144). -/
def bartenderKeys (df : List FinalRow) : List (List Char) :=
  List.insertionSort lexLe ((expectedDf df).map (fun r => r.gRNA_combination)).dedup

/-- The rows of one per-key bartender file: the (Clonal_barcode,
Read_ID) pairs of the expected rows bearing the key, in row order
(line 150). -/
def bartenderFileRows (df : List FinalRow) (key : List Char) :
    List (List Char × List Char) :=
  ((expectedDf df).filter (fun r => r.gRNA_combination = key)).map
    (fun r => (r.Clonal_barcode, r.Read_ID))

/-- The bartender output (lines 144-150): for each distinct
combination key, the pair of the key (naming the per-key file) and the
file's rows. -/
def bartenderFiles (df : List FinalRow) :
    List (List Char × List (List Char × List Char)) :=
  (bartenderKeys df).map (fun k => (k, bartenderFileRows df k))

/-- The whole extraction stage on in-memory streams: run the loop from
the zero state, build `Final_df`, and compute all three outputs. -/
structure ParseOutputs where
  total_reads : Nat
  extracted_reads : Nat
  matched_reads : Nat
  final_df : List FinalRow
  unexpected_out : List FinalRow
  intermediate_out : List FinalRow
  bartender_out : List (List Char × List (List Char × List Char))
deriving DecidableEq, Repr

/-- `main` of dual_guide_parsing.py after loading the reference lists,
on the stream model (file writing aside). -/
def runParsing (gRNA1_list gRNA2_list : List (List Char))
    (sample_id : List Char) (s1 s2 : List (List Char)) : ParseOutputs :=
  let st := parseLoop gRNA1_list gRNA2_list s1 s2 ⟨0, 0, 0, []⟩
  let df := mkFinalDf sample_id st.recs
  ⟨st.total_reads, st.extracted_reads, st.matched_reads, df,
    unexpectedRows df, intermediateRows df, bartenderFiles df⟩

/-- The summary arithmetic of the final report (dual_guide_parsing.py,
lines 119-121): `extracted_reads/total_reads` and
`matched_reads/total_reads`.  Python integer division by zero raises
`ZeroDivisionError`; the model returns `none` exactly in that case. -/
def summaryRates (total extracted matched : Nat) : Option (ℚ × ℚ) :=
  if total = 0 then none
  else some ((extracted : ℚ) / (total : ℚ), (matched : ℚ) / (total : ℚ))

example : parseLoop [] [] [] [] ⟨0,0,0,[]⟩ = ⟨0,0,0,[]⟩ := by
  rw [parseLoop]
  rfl

example :
    (parseLoop [] [] ["@r1".data, "TT".data, "+".data, "!".data]
      ["@r1".data, "AA".data, "+".data, "!".data] ⟨0,0,0,[]⟩).total_reads = 1 := by
  rw [parseLoop, parseLoop]
  rfl

/- ---------------------------------------------------------------------
   The aggregation pipeline (dual_guide_aggregate.py).
--------------------------------------------------------------------- -/

/-- One row of a bartender `*_barcode.csv` file after the `Frequency`
column is dropped (dual_guide_aggregate.py, line 39): the raw barcode
(`Unique.reads`) and its cluster identifier (`Cluster.ID`). -/
structure BarcodeEntry where
  UniqueReads : List Char
  ClusterID : Nat
deriving DecidableEq, Repr

/-- One row of a bartender `*_cluster.csv` file after the
`Cluster.Score` and `time_point_1` columns are dropped (line 41): the
cluster identifier and its consensus center sequence. -/
structure ClusterEntry where
  ClusterID : Nat
  Center : List Char
deriving DecidableEq, Repr

/-- One row of a `.bartender` input file (line 43): raw barcode and
read identifier. -/
structure BartenderRow where
  Clonal_barcode : List Char
  Read_ID : List Char
deriving DecidableEq, Repr

/-- One row of the Step-1 join result after the renames and the drop
of `Cluster.ID` (lines 46-49): raw barcode (`Clonal_barcode`, from
`Unique.reads`) and cluster center (`Clonal_barcode_center`, from
`Center`). -/
structure Step1Row where
  Clonal_barcode : List Char
  Clonal_barcode_center : List Char
deriving DecidableEq, Repr

/-- One row of `merged_df` after the Step-2 right join (line 49): the
center is `none` when the bartender pair's barcode had no match in the
Step-1 result (pandas fills NaN). -/
structure MergedRow where
  Clonal_barcode : List Char
  Clonal_barcode_center : Option (List Char)
  Read_ID : List Char
deriving DecidableEq, Repr

/-- Step 1 (line 46): `pd.merge(barcode_df, cluster_df, how='inner',
on='Cluster.ID')`, followed by the renames and the drop of
`Cluster.ID` (lines 47-49).  Modelled as the filtered product; the
claims proved below are insensitive to row order. -/
def innerJoinBarcodeCluster (barcode_df : List BarcodeEntry)
    (cluster_df : List ClusterEntry) : List Step1Row :=
  barcode_df.flatMap (fun b =>
    cluster_df.filterMap (fun c =>
      if b.ClusterID = c.ClusterID then some ⟨b.UniqueReads, c.Center⟩ else none))

/-- Step 2 (line 49): `.merge(bartender_df, on='Clonal_barcode',
how='right')` — every bartender row is kept; a row with no barcode
match gets a null center, a row with several matches is repeated once
per match. -/
def rightJoinBartender (step1 : List Step1Row) (bartender_df : List BartenderRow) :
    List MergedRow :=
  bartender_df.flatMap (fun p =>
    match step1.filter (fun r => r.Clonal_barcode = p.Clonal_barcode) with
    | [] => [⟨p.Clonal_barcode, none, p.Read_ID⟩]
    | ms => ms.map (fun r => ⟨p.Clonal_barcode, some r.Clonal_barcode_center, p.Read_ID⟩))

/-- `merge_barcode_and_sgRNA_output` (dual_guide_aggregate.py, lines
26-51) on already-loaded tables. -/
def merge_barcode_and_sgRNA_output (barcode_df : List BarcodeEntry)
    (cluster_df : List ClusterEntry) (bartender_df : List BartenderRow) :
    List MergedRow :=
  rightJoinBartender (innerJoinBarcodeCluster barcode_df cluster_df) bartender_df

/-- One row of the unified per-sample table `final_df` (line 82): the
Step-2 result merged with the `Intermediate_df.csv` reference rows. -/
structure UnifiedRow where
  Clonal_barcode : List Char
  Clonal_barcode_center : Option (List Char)
  Read_ID : List Char
  gRNA1 : List Char
  gRNA2 : List Char
  Sample_ID : List Char
  Class : List Char
  gRNA_combination : List Char
deriving DecidableEq, Repr

/-- Step 3 (line 82): `combined_df.merge(sgRNA_ref_df, on=['Read_ID',
'Clonal_barcode'])` — an inner join on the read-identifier/barcode
pair. -/
def mergeWithRef (combined_df : List MergedRow) (ref : List FinalRow) :
    List UnifiedRow :=
  combined_df.flatMap (fun m =>
    ref.filterMap (fun f =>
      if f.Read_ID = m.Read_ID ∧ f.Clonal_barcode = m.Clonal_barcode then
        some ⟨m.Clonal_barcode, m.Clonal_barcode_center, m.Read_ID,
          f.gRNA1, f.gRNA2, f.Sample_ID, f.Class, f.gRNA_combination⟩
      else none))

/-- The contents of one sample folder: one (barcode file, cluster
file, bartender file) triple per discovered `*_cluster.csv` (lines
70-77). -/
structure SamplePart where
  barcode_df : List BarcodeEntry
  cluster_df : List ClusterEntry
  bartender_df : List BartenderRow
deriving Repr

/-- `combined_df` (line 80): concatenation of the per-part merge
results, then Step 3 against the sample's `Intermediate_df.csv`
(line 82). -/
def unifiedTable (parts : List SamplePart) (ref : List FinalRow) : List UnifiedRow :=
  ((parts.map (fun t =>
      merge_barcode_and_sgRNA_output t.barcode_df t.cluster_df t.bartender_df)).flatten).flatMap
    (fun m => ref.filterMap (fun f =>
      if f.Read_ID = m.Read_ID ∧ f.Clonal_barcode = m.Clonal_barcode then
        some ⟨m.Clonal_barcode, m.Clonal_barcode_center, m.Read_ID,
          f.gRNA1, f.gRNA2, f.Sample_ID, f.Class, f.gRNA_combination⟩
      else none))

/-- Grouping key of the raw aggregation (line 85):
`['gRNA_combination', 'Clonal_barcode_center', 'gRNA1', 'gRNA2',
'Clonal_barcode', 'Sample_ID']`. -/
structure RawKey where
  gRNA_combination : List Char
  Clonal_barcode_center : List Char
  gRNA1 : List Char
  gRNA2 : List Char
  Clonal_barcode : List Char
  Sample_ID : List Char
deriving DecidableEq, Repr

/-- Grouping key of the complete aggregation (line 89): the raw key
without the raw barcode. -/
structure CompleteKey where
  gRNA_combination : List Char
  Clonal_barcode : List Char
  gRNA1 : List Char
  gRNA2 : List Char
  Sample_ID : List Char
deriving DecidableEq, Repr

/-- The raw grouping key of a unified row, or `none` when the row's
cluster center is null: pandas `groupby` silently drops rows with a
null grouping key. -/
def rawKey? (u : UnifiedRow) : Option RawKey :=
  match u.Clonal_barcode_center with
  | none => none
  | some c => some ⟨u.gRNA_combination, c, u.gRNA1, u.gRNA2, u.Clonal_barcode, u.Sample_ID⟩

/-- The complete grouping key of a unified row (the center is renamed
to `Clonal_barcode` in the output, line 91), or `none` when the
center is null. -/
def completeKey? (u : UnifiedRow) : Option CompleteKey :=
  match u.Clonal_barcode_center with
  | none => none
  | some c => some ⟨u.gRNA_combination, c, u.gRNA1, u.gRNA2, u.Sample_ID⟩

/-- Forgetting the raw barcode turns a raw key into a complete key. -/
def rawToComplete (k : RawKey) : CompleteKey :=
  ⟨k.gRNA_combination, k.Clonal_barcode_center, k.gRNA1, k.gRNA2, k.Sample_ID⟩

/-- `final_df.groupby(group_cols_raw, as_index=False)['Read_ID'].count()`
(lines 85-87): one output row per distinct key, paired with the number
of unified rows bearing that key (`Read_ID` is never null there).
Keys are enumerated in order of first appearance; the claims proved
below are insensitive to row order. -/
def deduplicated_raw (l : List UnifiedRow) : List (RawKey × Nat) :=
  (l.filterMap rawKey?).dedup.map (fun k => (k, (l.filterMap rawKey?).count k))

/-- `final_df.groupby(group_cols_complete, as_index=False)['Read_ID'].count()`
(lines 89-91). -/
def deduplicated_complete (l : List UnifiedRow) : List (CompleteKey × Nat) :=
  (l.filterMap completeKey?).dedup.map (fun k => (k, (l.filterMap completeKey?).count k))

/-- `combine_sgRNA_barcode_from_same_mouse` (lines 53-93) on loaded
tables: the pair (deduplicated_raw, deduplicated_complete). -/
def combine_sgRNA_barcode_from_same_mouse (parts : List SamplePart)
    (ref : List FinalRow) : List (RawKey × Nat) × List (CompleteKey × Nat) :=
  (deduplicated_raw (unifiedTable parts ref),
   deduplicated_complete (unifiedTable parts ref))

/-- `pd.concat(final_dataframes)` (line 122): the cross-sample
combiner only concatenates the per-sample complete tables. -/
def crossSampleCombine (tables : List (List (CompleteKey × Nat))) :
    List (CompleteKey × Nat) :=
  tables.flatten

/- ---------------------------------------------------------------------
   Helper lemmas (shared).
--------------------------------------------------------------------- -/

/-- The ten-character alphabet handled by `temp_dic`. -/
def dnaAlphabet : List Char :=
  ['A', 'C', 'G', 'T', 'N', 'a', 'c', 'g', 't', 'n']

theorem complementChar_involutive (c : Char) :
    complementChar (complementChar c) = c := by
  by_cases h1 : c = 'A'; · subst h1; decide
  by_cases h2 : c = 'G'; · subst h2; decide
  by_cases h3 : c = 'T'; · subst h3; decide
  by_cases h4 : c = 'C'; · subst h4; decide
  by_cases h5 : c = 'N'; · subst h5; decide
  by_cases h6 : c = 'a'; · subst h6; decide
  by_cases h7 : c = 'g'; · subst h7; decide
  by_cases h8 : c = 't'; · subst h8; decide
  by_cases h9 : c = 'c'; · subst h9; decide
  by_cases h10 : c = 'n'; · subst h10; decide
  simp [complementChar, h1, h2, h3, h4, h5, h6, h7, h8, h9, h10]

theorem revcompL_involutive (l : List Char) : revcompL (revcompL l) = l := by
  have h : complementChar ∘ complementChar = id := by
    funext c; exact complementChar_involutive c
  simp [revcompL, List.map_reverse, List.map_map, h]

/- ---------------------------------------------------------------------
   C8: the reverse-complement transform.
--------------------------------------------------------------------- -/

/-- C8: for every sequence over {A,C,G,T,N} in either case the
reverse-complement transform is an involution; the transform reverses
the string and substitutes each character by its Watson-Crick
complement preserving case (A↔T, C↔G, N↔N, a↔t, c↔g, n↔n), and
characters outside the alphabet pass through unchanged. -/
theorem c8_revcomp_involution :
    (∀ s : String, (∀ c ∈ s.data, c ∈ dnaAlphabet) →
        find_reverse_complementary (find_reverse_complementary s) = s)
    ∧ (∀ s : String,
        (find_reverse_complementary s).data = s.data.reverse.map complementChar)
    ∧ complementChar 'A' = 'T' ∧ complementChar 'T' = 'A'
    ∧ complementChar 'C' = 'G' ∧ complementChar 'G' = 'C'
    ∧ complementChar 'N' = 'N'
    ∧ complementChar 'a' = 't' ∧ complementChar 't' = 'a'
    ∧ complementChar 'c' = 'g' ∧ complementChar 'g' = 'c'
    ∧ complementChar 'n' = 'n'
    ∧ (∀ c : Char, c ∉ dnaAlphabet → complementChar c = c) := by
  refine ⟨fun s _ => ?_, fun s => rfl, by decide, by decide, by decide, by decide,
    by decide, by decide, by decide, by decide, by decide, by decide, fun c hc => ?_⟩
  · show String.mk (revcompL (revcompL s.data)) = s
    rw [revcompL_involutive]
  · simp only [dnaAlphabet, List.mem_cons, List.not_mem_nil, or_false] at hc
    push_neg at hc
    obtain ⟨h1, h2, h3, h4, h5, h6, h7, h8, h9, h10⟩ := hc
    simp [complementChar, h1, h2, h3, h4, h5, h6, h7, h8, h9, h10]

/-- Witness for C8 at a concrete sequence and a concrete
out-of-alphabet character. -/
theorem c8_revcomp_involution_witness :
    find_reverse_complementary (find_reverse_complementary "ACGTNacgtn") = "ACGTNacgtn"
    ∧ complementChar 'X' = 'X' := by
  refine ⟨c8_revcomp_involution.1 "ACGTNacgtn" (by decide), ?_⟩
  exact c8_revcomp_involution.2.2.2.2.2.2.2.2.2.2.2.2 'X' (by decide)

/- ---------------------------------------------------------------------
   C5: the match-rate summary at zero total reads.
--------------------------------------------------------------------- -/

/-- C5 (code bug): at the failing input of two empty read streams the
loop leaves `total_reads = 0`, and the summary arithmetic of lines
119-121 divides by `total_reads` with no guard: the model returns
`none` (Python raises `ZeroDivisionError`) instead of reporting zero
rates. -/
theorem c5_summary_unguarded_at_zero_reads :
    (parseLoop [] [] [] [] ⟨0, 0, 0, []⟩).total_reads = 0 ∧
    summaryRates (parseLoop [] [] [] [] ⟨0, 0, 0, []⟩).total_reads
      (parseLoop [] [] [] [] ⟨0, 0, 0, []⟩).extracted_reads
      (parseLoop [] [] [] [] ⟨0, 0, 0, []⟩).matched_reads = none := by
  rw [parseLoop]
  exact ⟨rfl, rfl⟩

/- ---------------------------------------------------------------------
   Concrete example data shared by witnesses: one read pair whose two
   patterns both match.
--------------------------------------------------------------------- -/

/-- Mate-1 line: TAGTT + barcode (16 A) + TATGG + tag1 (16 C) + GTTTA. -/
def exSeq1 : List Char := "TAGTTAAAAAAAAAAAAAAAATATGGCCCCCCCCCCCCCCCCGTTTA".data

/-- Mate-2 line as stored in the file: its reverse complement is
TGTTG + tag2 (16 G) + GTTTG. -/
def exRaw2 : List Char := "CAAACCCCCCCCCCCCCCCCCCAACA".data

/-- The extracted tag-1 (16 C). -/
def exT1 : List Char := "CCCCCCCCCCCCCCCC".data

/-- The extracted tag-2 (16 G). -/
def exT2 : List Char := "GGGGGGGGGGGGGGGG".data

/-- The extracted barcode (16 A). -/
def exBC : List Char := "AAAAAAAAAAAAAAAA".data

/-- Mate-1 stream: one 4-line record. -/
def exS1 : List (List Char) := ["@r1".data, exSeq1, "+".data, "IIII".data]

/-- Mate-2 stream: one 4-line record. -/
def exS2 : List (List Char) := ["@r1b".data, exRaw2, "+".data, "IIII".data]

theorem exLoop_expected_eq :
    parseLoop [exT1] [exT2] exS1 exS2 ⟨0, 0, 0, []⟩ =
      ⟨1, 1, 1, [⟨exT1, exT2, exBC, "@r1".data, "Expected".data⟩]⟩ := by
  rw [parseLoop, parseLoop]
  decide

theorem exLoop_unexpected_eq :
    parseLoop [] [] exS1 exS2 ⟨0, 0, 0, []⟩ =
      ⟨1, 1, 0, [⟨exT1, exT2, exBC, "@r1".data, "Unexpected".data⟩]⟩ := by
  rw [parseLoop, parseLoop]
  decide

/- ---------------------------------------------------------------------
   C3: classification of extracted records.
--------------------------------------------------------------------- -/

/-- What the loop body does to the record list: either no record is
added (a pattern failed) or exactly one record is appended, labelled
by the reference-membership test. -/
theorem processRecord_recs (g1 g2 : List (List Char)) (rid q1 q2 : List Char)
    (st : ParseState) :
    (processRecord g1 g2 rid q1 q2 st).recs = st.recs ∨
    ∃ bc t1 t2, searchPattern1 q1 = some (bc, t1) ∧ searchPattern2 q2 = some t2 ∧
      (processRecord g1 g2 rid q1 q2 st).recs = st.recs ++
        [⟨t1, t2, bc, rid,
          if t1 ∈ g1 ∧ t2 ∈ g2 then "Expected".data else "Unexpected".data⟩] := by
  unfold processRecord
  cases h1 : searchPattern1 q1 with
  | none => left; rfl
  | some v =>
    cases h2 : searchPattern2 q2 with
    | none => left; rfl
    | some t2 =>
      right
      obtain ⟨bc, t1⟩ := v
      refine ⟨bc, t1, t2, rfl, rfl, ?_⟩
      by_cases hm : t1 ∈ g1 ∧ t2 ∈ g2
      · simp [hm]
      · simp [hm]

/-- The classification invariant on a collected record. -/
def labelSpec (g1 g2 : List (List Char)) (r : ExtractedRec) : Prop :=
  (r.label = "Expected".data ↔ r.gRNA1 ∈ g1 ∧ r.gRNA2 ∈ g2) ∧
  (r.label = "Expected".data ∨ r.label = "Unexpected".data)

/-- The loop preserves the classification invariant. -/
theorem parseLoop_labelSpec (g1 g2 : List (List Char))
    (s1 s2 : List (List Char)) (st : ParseState) :
    (∀ r ∈ st.recs, labelSpec g1 g2 r) →
    ∀ r ∈ (parseLoop g1 g2 s1 s2 st).recs, labelSpec g1 g2 r := by
  induction s1, s2, st using parseLoop.induct g1 g2 with
  | case1 s1 s2 st hstop =>
      intro h
      rw [parseLoop, if_pos hstop]
      exact h
  | case2 s1 s2 st hne ih =>
      intro h
      rw [parseLoop, if_neg hne]
      apply ih
      rcases processRecord_recs g1 g2 (rstrip (streamLine s1 0))
          (rstrip (streamLine s1 1)) (revcompL (rstrip (streamLine s2 1))) st with
        heq | ⟨bc, t1, t2, _, _, heq⟩
      · rw [heq]; exact h
      · rw [heq]
        intro r hr
        rcases List.mem_append.1 hr with hr | hr
        · exact h r hr
        · have hr' := List.mem_singleton.1 hr
          subst hr'
          by_cases hm : t1 ∈ g1 ∧ t2 ∈ g2
          · simp [labelSpec, hm]
          · simp [labelSpec, hm]

/-- Every row of the final table is classified `Expected` or
`Unexpected`. -/
theorem runParsing_class_dichotomy (g1 g2 : List (List Char)) (sid : List Char)
    (s1 s2 : List (List Char)) :
    ∀ r ∈ (runParsing g1 g2 sid s1 s2).final_df,
      r.Class = "Expected".data ∨ r.Class = "Unexpected".data := by
  intro r hr
  simp only [runParsing, mkFinalDf, List.mem_map] at hr
  obtain ⟨q, hq, hq2⟩ := hr
  have hspec := parseLoop_labelSpec g1 g2 s1 s2 ⟨0, 0, 0, []⟩
    (by intro x hx; exact absurd hx (List.not_mem_nil x)) q hq
  rw [← hq2]
  exact hspec.2

/-- C3: for every read pair whose two patterns both match, the
resulting record's `Class` is `Expected` iff gRNA1 is in the G1
reference list and gRNA2 is in the G2 reference list, and in every
other case the `Class` is `Unexpected` — stated for every row of the
final table of any run. -/
theorem c3_expected_iff_both_tags_in_reference (g1ref g2ref : List (List Char))
    (sid : List Char) (s1 s2 : List (List Char)) :
    ∀ r ∈ (runParsing g1ref g2ref sid s1 s2).final_df,
      (r.Class = "Expected".data ↔ r.gRNA1 ∈ g1ref ∧ r.gRNA2 ∈ g2ref) ∧
      (¬(r.gRNA1 ∈ g1ref ∧ r.gRNA2 ∈ g2ref) → r.Class = "Unexpected".data) := by
  intro r hr
  have hrec : ∃ q ∈ (parseLoop g1ref g2ref s1 s2 ⟨0, 0, 0, []⟩).recs,
      r = ⟨q.gRNA1, q.gRNA2, q.Clonal_barcode, q.Read_ID, sid, q.label,
        q.gRNA1 ++ '_' :: q.gRNA2⟩ := by
    simp only [runParsing, mkFinalDf, List.mem_map] at hr
    obtain ⟨q, hq, hq2⟩ := hr
    exact ⟨q, hq, hq2.symm⟩
  obtain ⟨q, hq, hq2⟩ := hrec
  have hspec := parseLoop_labelSpec g1ref g2ref s1 s2 ⟨0, 0, 0, []⟩
    (by intro x hx; exact absurd hx (List.not_mem_nil x)) q hq
  subst hq2
  refine ⟨hspec.1, fun hnot => ?_⟩
  rcases hspec.2 with he | hu
  · exact absurd (hspec.1.1 he) hnot
  · exact hu

/-- Witness for C3 at a concrete run with one Expected read. -/
def exRowE : FinalRow :=
  ⟨exT1, exT2, exBC, "@r1".data, "S1".data, "Expected".data, exT1 ++ '_' :: exT2⟩

theorem exRun_expected_eq :
    runParsing [exT1] [exT2] "S1".data exS1 exS2 =
      ⟨1, 1, 1, [exRowE], [], [exRowE],
        [(exT1 ++ '_' :: exT2, [(exBC, "@r1".data)])]⟩ := by
  simp only [runParsing]
  rw [exLoop_expected_eq]
  decide

theorem c3_expected_iff_witness :
    (exRowE.Class = "Expected".data ↔ exRowE.gRNA1 ∈ [exT1] ∧ exRowE.gRNA2 ∈ [exT2]) ∧
    (¬(exRowE.gRNA1 ∈ [exT1] ∧ exRowE.gRNA2 ∈ [exT2]) →
      exRowE.Class = "Unexpected".data) :=
  c3_expected_iff_both_tags_in_reference [exT1] [exT2] "S1".data exS1 exS2 exRowE
    (by rw [exRun_expected_eq]; decide)

/- ---------------------------------------------------------------------
   C1: which records reach the downstream outputs.
--------------------------------------------------------------------- -/

/-- Concatenating the per-key filtered groups over a duplicate-free,
covering key list is a permutation of the grouped list. -/
theorem flatten_groups_perm {α K : Type} [DecidableEq K] (f : α → K) :
    ∀ (ks : List K) (l : List α), ks.Nodup → (∀ x ∈ l, f x ∈ ks) →
      List.Perm ((ks.map (fun k => l.filter (fun x => f x = k))).flatten) l := by
  intro ks
  induction ks with
  | nil =>
      intro l _ hcov
      have hl : l = [] := by
        cases l with
        | nil => rfl
        | cons a t => exact absurd (hcov a (by simp)) (by simp)
      subst hl; simp
  | cons k ks ih =>
      intro l hnd hcov
      simp only [List.map_cons, List.flatten_cons]
      have hcongr : ∀ k' ∈ ks,
          l.filter (fun x => f x = k') =
          (l.filter (fun x => !(decide (f x = k)))).filter (fun x => f x = k') := by
        intro k' hk'
        rw [List.filter_filter]
        apply List.filter_congr
        intro x _
        by_cases hx : f x = k'
        · have hk'k : ¬(k' = k) := by
            intro hkk; subst hkk; exact (List.nodup_cons.1 hnd).1 hk'
          simp [hx, hk'k]
        · simp [hx]
      have hmapeq : ks.map (fun k' => l.filter (fun x => f x = k')) =
          ks.map (fun k' =>
            (l.filter (fun x => !(decide (f x = k)))).filter (fun x => f x = k')) :=
        List.map_congr_left hcongr
      rw [hmapeq]
      have hperm := ih (l.filter (fun x => !(decide (f x = k))))
        (List.nodup_cons.1 hnd).2
        (by
          intro x hx
          rcases List.mem_filter.1 hx with ⟨hxl, hxk⟩
          have hmem := hcov x hxl
          simp only [Bool.not_eq_true', decide_eq_false_iff_not] at hxk
          simpa [hxk] using hmem)
      exact (List.Perm.append_left (l.filter (fun x => f x = k)) hperm).trans
        (List.filter_append_perm _ l)

/-- Under the Expected/Unexpected dichotomy, filtering away
`Unexpected` rows is the same as keeping `Expected` rows. -/
theorem filter_ne_unexpected_eq_filter_expected (df : List FinalRow)
    (hd : ∀ r ∈ df, r.Class = "Expected".data ∨ r.Class = "Unexpected".data) :
    df.filter (fun r => r.Class ≠ "Unexpected".data) =
      df.filter (fun r => r.Class = "Expected".data) := by
  apply List.filter_congr
  intro r hr
  rcases hd r hr with he | hu
  · simp only [he]
    decide
  · simp only [hu]
    decide

/-- The downstream outputs of the extraction stage, characterised on
any final table satisfying the classification dichotomy. -/
theorem downstream_of_dichotomy (df : List FinalRow)
    (hd : ∀ r ∈ df, r.Class = "Expected".data ∨ r.Class = "Unexpected".data) :
    intermediateRows df = df.filter (fun r => r.Class = "Expected".data)
    ∧ (∀ kf ∈ bartenderFiles df,
        kf.2 = ((df.filter (fun r => r.Class = "Expected".data)).filter
            (fun r => r.gRNA_combination = kf.1)).map
          (fun r => (r.Clonal_barcode, r.Read_ID)))
    ∧ List.Perm ((bartenderFiles df).map Prod.snd).flatten
        ((df.filter (fun r => r.Class = "Expected".data)).map
          (fun r => (r.Clonal_barcode, r.Read_ID))) := by
  have hE : expectedDf df = df.filter (fun r => r.Class = "Expected".data) :=
    filter_ne_unexpected_eq_filter_expected df hd
  have hkeysnd : (bartenderKeys df).Nodup := by
    unfold bartenderKeys
    exact List.Perm.nodup (List.perm_insertionSort lexLe _).symm (List.nodup_dedup _)
  have hcov : ∀ r ∈ df.filter (fun r => r.Class = "Expected".data),
      r.gRNA_combination ∈ bartenderKeys df := by
    intro r hr
    unfold bartenderKeys
    apply (List.perm_insertionSort lexLe _).mem_iff.mpr
    apply List.mem_dedup.mpr
    apply List.mem_map.mpr
    exact ⟨r, by rw [hE]; exact hr, rfl⟩
  refine ⟨hE, ?_, ?_⟩
  · intro kf hkf
    unfold bartenderFiles at hkf
    obtain ⟨k, _, rfl⟩ := List.mem_map.1 hkf
    show bartenderFileRows df k = _
    unfold bartenderFileRows
    rw [hE]
  · have h2 : (bartenderFiles df).map Prod.snd =
        (bartenderKeys df).map (fun k => bartenderFileRows df k) := by
      unfold bartenderFiles
      rw [List.map_map]
      rfl
    have h3 : (fun k => bartenderFileRows df k) =
        fun k => ((df.filter (fun r => r.Class = "Expected".data)).filter
            (fun r => r.gRNA_combination = k)).map
          (fun r => (r.Clonal_barcode, r.Read_ID)) := by
      funext k
      unfold bartenderFileRows
      rw [hE]
    rw [h2, h3]
    have h4 : (bartenderKeys df).map
        (fun k => ((df.filter (fun r => r.Class = "Expected".data)).filter
            (fun r => r.gRNA_combination = k)).map
          (fun r => (r.Clonal_barcode, r.Read_ID))) =
        ((bartenderKeys df).map
          (fun k => (df.filter (fun r => r.Class = "Expected".data)).filter
            (fun r => r.gRNA_combination = k))).map
          (List.map (fun r => (r.Clonal_barcode, r.Read_ID))) := by
      rw [List.map_map]
      rfl
    rw [h4, ← List.map_flatten]
    exact List.Perm.map _
      (flatten_groups_perm (fun r => r.gRNA_combination) (bartenderKeys df)
        (df.filter (fun r => r.Class = "Expected".data)) hkeysnd hcov)

/-- The row produced by the example read when the reference lists are
empty, so that classification is `Unexpected`. -/
def exRowU : FinalRow :=
  ⟨exT1, exT2, exBC, "@r1".data, "S1".data, "Unexpected".data, exT1 ++ '_' :: exT2⟩

/-- C1 counterexample: a concrete run over one read pair whose two
anchored patterns both match (`extracted_reads = 1`, the final table
holds the record) but whose classification is `Unexpected`: the record
is written to the Unexpected output only, while the intermediate file
(`Final_df[Final_df.Class != 'Unexpected']`, line 140) and the
bartender partition (lines 142-150) are empty — refuting the claim
that every double-match read reaches the second output set. -/
theorem c1_counterexample_unexpected_read_dropped :
    (runParsing [] [] "S1".data exS1 exS2).extracted_reads = 1 ∧
    (runParsing [] [] "S1".data exS1 exS2).final_df = [exRowU] ∧
    (runParsing [] [] "S1".data exS1 exS2).unexpected_out = [exRowU] ∧
    (runParsing [] [] "S1".data exS1 exS2).intermediate_out = [] ∧
    (runParsing [] [] "S1".data exS1 exS2).bartender_out = [] := by
  simp only [runParsing]
  rw [exLoop_unexpected_eq]
  decide

/-- C1 (amended): only the records classified `Expected` are written
to the intermediate file and partitioned into the bartender pair
files; records classified `Unexpected` go to the Unexpected output
only, and reads failing a pattern match appear nowhere.  Concretely:
the intermediate output equals the `Expected`-filtered final table;
each bartender file holds exactly the (barcode, read id) pairs of the
`Expected` rows bearing its key, in row order; and the bartender files
together hold exactly the `Expected` rows' pairs. -/
theorem c1_only_expected_downstream (g1 g2 : List (List Char))
    (sid : List Char) (s1 s2 : List (List Char)) :
    (runParsing g1 g2 sid s1 s2).intermediate_out =
      (runParsing g1 g2 sid s1 s2).final_df.filter
        (fun r => r.Class = "Expected".data)
    ∧ (∀ kf ∈ (runParsing g1 g2 sid s1 s2).bartender_out,
        kf.2 = (((runParsing g1 g2 sid s1 s2).final_df.filter
            (fun r => r.Class = "Expected".data)).filter
          (fun r => r.gRNA_combination = kf.1)).map
          (fun r => (r.Clonal_barcode, r.Read_ID)))
    ∧ List.Perm
        (((runParsing g1 g2 sid s1 s2).bartender_out.map Prod.snd).flatten)
        (((runParsing g1 g2 sid s1 s2).final_df.filter
            (fun r => r.Class = "Expected".data)).map
          (fun r => (r.Clonal_barcode, r.Read_ID))) := by
  have h1 : (runParsing g1 g2 sid s1 s2).intermediate_out =
      intermediateRows ((runParsing g1 g2 sid s1 s2).final_df) := rfl
  have h2 : (runParsing g1 g2 sid s1 s2).bartender_out =
      bartenderFiles ((runParsing g1 g2 sid s1 s2).final_df) := rfl
  have hd := runParsing_class_dichotomy g1 g2 sid s1 s2
  obtain ⟨ha, hb, hc⟩ := downstream_of_dichotomy _ hd
  rw [h1, h2]
  exact ⟨ha, hb, hc⟩

/-- Witness for the amended C1 at the concrete Expected run,
discharging the bartender-file membership hypothesis. -/
theorem c1_only_expected_downstream_witness :
    (exT1 ++ '_' :: exT2, [(exBC, "@r1".data)]).2 =
      (((runParsing [exT1] [exT2] "S1".data exS1 exS2).final_df.filter
          (fun r => r.Class = "Expected".data)).filter
        (fun r => r.gRNA_combination =
          (exT1 ++ '_' :: exT2, [(exBC, "@r1".data)]).1)).map
        (fun r => (r.Clonal_barcode, r.Read_ID)) :=
  (c1_only_expected_downstream [exT1] [exT2] "S1".data exS1 exS2).2.1
    (exT1 ++ '_' :: exT2, [(exBC, "@r1".data)])
    (by rw [exRun_expected_eq]; decide)

/- ---------------------------------------------------------------------
   C10: a blank mate-1 identifier line truncates both streams.
--------------------------------------------------------------------- -/

/-- A list of length `4 * (n + 1)` splits off four leading elements. -/
theorem exists_four_cons {α : Type} (l : List α) (n : Nat)
    (h : l.length = 4 * (n + 1)) :
    ∃ a1 a2 a3 a4 t, l = a1 :: a2 :: a3 :: a4 :: t ∧ t.length = 4 * n := by
  match l with
  | a1 :: a2 :: a3 :: a4 :: t =>
      refine ⟨a1, a2, a3, a4, t, rfl, ?_⟩
      simp only [List.length_cons] at h
      omega
  | [] => simp only [List.length_nil] at h; omega
  | [a] => simp only [List.length_cons, List.length_nil] at h; omega
  | [a, b] => simp only [List.length_cons, List.length_nil] at h; omega
  | [a, b, c] => simp only [List.length_cons, List.length_nil] at h; omega

/-- C10: the extraction loop stops at the first mate-1 record whose
identifier line is empty after stripping trailing whitespace; running
on streams whose mate-1 part has `k` complete records followed by such
a line is the same as running on the two `4 * k`-line prefixes alone —
nothing at or past the blank line is counted or recorded, and the
mate-2 stream is abandoned at the same point. -/
theorem c10_blank_id_line_truncates_both_streams
    (g1 g2 : List (List Char)) (k : Nat) :
    ∀ (pre1 pre2 : List (List Char)) (idline : List Char)
      (rest1 rest2 : List (List Char)) (st : ParseState),
      pre1.length = 4 * k → pre2.length = 4 * k → rstrip idline = [] →
      parseLoop g1 g2 (pre1 ++ idline :: rest1) (pre2 ++ rest2) st =
        parseLoop g1 g2 pre1 pre2 st := by
  induction k with
  | zero =>
      intro pre1 pre2 idline rest1 rest2 st h1 h2 hid
      have hp1 : pre1 = [] := List.eq_nil_of_length_eq_zero (by omega)
      have hp2 : pre2 = [] := List.eq_nil_of_length_eq_zero (by omega)
      subst hp1; subst hp2
      simp only [List.nil_append]
      have hrhs : parseLoop g1 g2 [] [] st = st := by
        rw [parseLoop]
        simp [streamLine, rstrip]
      have hlhs : parseLoop g1 g2 (idline :: rest1) rest2 st = st := by
        rw [parseLoop]
        simp only [streamLine, List.drop_zero, List.headD_cons]
        rw [if_pos hid]
      rw [hlhs, hrhs]
  | succ k ih =>
      intro pre1 pre2 idline rest1 rest2 st h1 h2 hid
      obtain ⟨a1, a2, a3, a4, t1, rfl, ht1⟩ := exists_four_cons pre1 k h1
      obtain ⟨b1, b2, b3, b4, t2, rfl, ht2⟩ := exists_four_cons pre2 k h2
      simp only [List.cons_append]
      conv_lhs => rw [parseLoop]
      conv_rhs => rw [parseLoop]
      simp only [streamLine, List.drop_zero, List.headD_cons,
        List.drop_succ_cons]
      by_cases hc : rstrip a1 = []
      · rw [if_pos hc, if_pos hc]
      · rw [if_neg hc, if_neg hc]
        exact ih t1 t2 idline rest1 rest2 _ ht1 ht2 hid

/-- Witness for C10: a blank identifier line after one complete record
discards a following well-formed record of both streams. -/
theorem c10_blank_id_line_witness :
    parseLoop [exT1] [exT2]
        (exS1 ++ [] :: ["@r2".data, exSeq1, "+".data, "II".data])
        (exS2 ++ ["@r2b".data, exRaw2, "+".data, "II".data]) ⟨0, 0, 0, []⟩ =
      parseLoop [exT1] [exT2] exS1 exS2 ⟨0, 0, 0, []⟩ :=
  c10_blank_id_line_truncates_both_streams [exT1] [exT2] 1 exS1 exS2 []
    ["@r2".data, exSeq1, "+".data, "II".data]
    ["@r2b".data, exRaw2, "+".data, "II".data] ⟨0, 0, 0, []⟩
    (by decide) (by decide) (by decide)

/- ---------------------------------------------------------------------
   C6: structure of the two extraction patterns.
--------------------------------------------------------------------- -/

/-- A successful `isPrefixOf` splits the larger list. -/
theorem isPrefixOf_append_drop (l t : List Char) (h : l.isPrefixOf t) :
    t = l ++ t.drop l.length := by
  have h2 := ( List.isPrefixOf_iff_prefix).1 h
  exact (( List.prefix_iff_eq_append).1 h2).symm

/-- A list is a prefix of itself followed by anything. -/
theorem isPrefixOf_self_append (l r : List Char) : l.isPrefixOf (l ++ r) :=
  ( List.isPrefixOf_iff_prefix).2 (List.prefix_append l r)

/-- `findSome?` succeeds when some listed element succeeds. -/
theorem findSome?_isSome_of_mem {α β : Type} {f : α → Option β} :
    ∀ {l : List α} {x : α} {b : β}, x ∈ l → f x = some b →
      (l.findSome? f).isSome
  | [], x, b, hx, _ => absurd hx (List.not_mem_nil x)
  | a :: l, x, b, hx, hb => by
      rw [List.findSome?_cons]
      cases ha : f a with
      | some v => simp
      | none =>
          rcases List.mem_cons.1 hx with rfl | hx'
          · rw [ha] at hb; exact absurd hb (by simp)
          · exact findSome?_isSome_of_mem hx' hb

/-- A successful `findSome?` comes from some listed element. -/
theorem exists_of_findSome?_some {α β : Type} {f : α → Option β} :
    ∀ {l : List α} {b : β}, l.findSome? f = some b → ∃ x ∈ l, f x = some b
  | [], b, h => by simp [List.findSome?] at h
  | a :: l, b, h => by
      rw [List.findSome?_cons] at h
      cases ha : f a with
      | some v =>
          rw [ha] at h
          exact ⟨a, List.mem_cons_self a l, by rw [ha]; exact h⟩
      | none =>
          rw [ha] at h
          obtain ⟨x, hx, hfx⟩ := exists_of_findSome?_some h
          exact ⟨x, List.mem_cons_of_mem a hx, hfx⟩

/-- Soundness of the fixed-length matcher for pattern 1: a match
splits the subject into ⟨junk, TAGTT, 16-char barcode, TATGG, L-char
tag, GTTTA, rest⟩. -/
theorem matchPattern1AtLen_sound (s : List Char) (p L : Nat) (bc t1 : List Char)
    (h : matchPattern1AtLen s p L = some (bc, t1)) :
    bc.length = 16 ∧ t1.length = L ∧
    ∃ u v, s = u ++ "TAGTT".data ++ bc ++ "TATGG".data ++ t1 ++ "GTTTA".data ++ v := by
  unfold matchPattern1AtLen at h
  simp only [] at h
  by_cases h1 : ("TAGTT".data).isPrefixOf (s.drop p) = true
  case neg => rw [if_neg h1] at h; exact absurd h (by simp)
  rw [if_pos h1] at h
  by_cases h2 : (((s.drop p).drop 5).take 16).length = 16
  case neg => rw [if_neg h2] at h; exact absurd h (by simp)
  rw [if_pos h2] at h
  by_cases h3 : ("TATGG".data).isPrefixOf (((s.drop p).drop 5).drop 16) = true
  case neg => rw [if_neg h3] at h; exact absurd h (by simp)
  rw [if_pos h3] at h
  by_cases h4 : (((((s.drop p).drop 5).drop 16).drop 5).take L).length = L
  case neg => rw [if_neg h4] at h; exact absurd h (by simp)
  rw [if_pos h4] at h
  by_cases h5 :
      (("GTTTA".data).isPrefixOf (((((s.drop p).drop 5).drop 16).drop 5).drop L)) = true
  case neg => rw [if_neg h5] at h; exact absurd h (by simp)
  rw [if_pos h5] at h
  have hbc : bc = ((s.drop p).drop 5).take 16 := by
    have := Option.some.inj h
    exact (congrArg Prod.fst this).symm
  have ht1 : t1 = ((((s.drop p).drop 5).drop 16).drop 5).take L := by
    have := Option.some.inj h
    exact (congrArg Prod.snd this).symm
  subst hbc; subst ht1
  refine ⟨h2, h4, s.take p,
    (((((s.drop p).drop 5).drop 16).drop 5).drop L).drop 5, ?_⟩
  have eq0 : s = s.take p ++ s.drop p := (List.take_append_drop p s).symm
  have eq1 : s.drop p = "TAGTT".data ++ (s.drop p).drop 5 := by
    have := isPrefixOf_append_drop _ _ h1
    simpa using this
  have eq2 : (s.drop p).drop 5 =
      ((s.drop p).drop 5).take 16 ++ ((s.drop p).drop 5).drop 16 :=
    (List.take_append_drop 16 _).symm
  have eq3 : ((s.drop p).drop 5).drop 16 =
      "TATGG".data ++ (((s.drop p).drop 5).drop 16).drop 5 := by
    have := isPrefixOf_append_drop _ _ h3
    simpa using this
  have eq4 : (((s.drop p).drop 5).drop 16).drop 5 =
      ((((s.drop p).drop 5).drop 16).drop 5).take L ++
        ((((s.drop p).drop 5).drop 16).drop 5).drop L :=
    (List.take_append_drop L _).symm
  have eq5 : ((((s.drop p).drop 5).drop 16).drop 5).drop L =
      "GTTTA".data ++ (((((s.drop p).drop 5).drop 16).drop 5).drop L).drop 5 := by
    have := isPrefixOf_append_drop _ _ h5
    simpa using this
  have c4 := eq4.trans (congrArg
    (fun x => ((((s.drop p).drop 5).drop 16).drop 5).take L ++ x) eq5)
  have c3 := eq3.trans (congrArg (fun x => "TATGG".data ++ x) c4)
  have c2 := eq2.trans (congrArg
    (fun x => ((s.drop p).drop 5).take 16 ++ x) c3)
  have c1 := eq1.trans (congrArg (fun x => "TAGTT".data ++ x) c2)
  have c0 := eq0.trans (congrArg (fun x => s.take p ++ x) c1)
  simpa [List.append_assoc] using c0

/-- Soundness of the fixed-length matcher for pattern 2. -/
theorem matchPattern2AtLen_sound (s : List Char) (p L : Nat) (t2 : List Char)
    (h : matchPattern2AtLen s p L = some t2) :
    t2.length = L ∧
    ∃ u v, s = u ++ "TGTTG".data ++ t2 ++ "GTTTG".data ++ v := by
  unfold matchPattern2AtLen at h
  simp only [] at h
  by_cases h1 : ("TGTTG".data).isPrefixOf (s.drop p) = true
  case neg => rw [if_neg h1] at h; exact absurd h (by simp)
  rw [if_pos h1] at h
  by_cases h2 : (((s.drop p).drop 5).take L).length = L
  case neg => rw [if_neg h2] at h; exact absurd h (by simp)
  rw [if_pos h2] at h
  by_cases h3 : (("GTTTG".data).isPrefixOf (((s.drop p).drop 5).drop L)) = true
  case neg => rw [if_neg h3] at h; exact absurd h (by simp)
  rw [if_pos h3] at h
  have ht2 : t2 = ((s.drop p).drop 5).take L := (Option.some.inj h).symm
  subst ht2
  refine ⟨h2, s.take p, (((s.drop p).drop 5).drop L).drop 5, ?_⟩
  have eq0 : s = s.take p ++ s.drop p := (List.take_append_drop p s).symm
  have eq1 : s.drop p = "TGTTG".data ++ (s.drop p).drop 5 := by
    have := isPrefixOf_append_drop _ _ h1
    simpa using this
  have eq2 : (s.drop p).drop 5 =
      ((s.drop p).drop 5).take L ++ ((s.drop p).drop 5).drop L :=
    (List.take_append_drop L _).symm
  have eq3 : ((s.drop p).drop 5).drop L =
      "GTTTG".data ++ (((s.drop p).drop 5).drop L).drop 5 := by
    have := isPrefixOf_append_drop _ _ h3
    simpa using this
  have c2 := eq2.trans (congrArg (fun x => ((s.drop p).drop 5).take L ++ x) eq3)
  have c1 := eq1.trans (congrArg (fun x => "TGTTG".data ++ x) c2)
  have c0 := eq0.trans (congrArg (fun x => s.take p ++ x) c1)
  simpa [List.append_assoc] using c0

/-- Dropping a length-`n` left factor. -/
theorem append_drop_len (T X : List Char) (n : Nat) (hT : T.length = n) :
    (T ++ X).drop n = X := by
  rw [← hT, List.drop_left]

/-- Taking a length-`n` left factor. -/
theorem append_take_len (T X : List Char) (n : Nat) (hT : T.length = n) :
    (T ++ X).take n = T := by
  rw [← hT, List.take_left]

/-- Completeness of the fixed-length matcher for pattern 1 at the
position and length of a given decomposition. -/
theorem matchPattern1AtLen_complete (u bc t1 v : List Char)
    (hbc : bc.length = 16) :
    matchPattern1AtLen
      (u ++ "TAGTT".data ++ bc ++ "TATGG".data ++ t1 ++ "GTTTA".data ++ v)
      u.length t1.length = some (bc, t1) := by
  have hs : u ++ "TAGTT".data ++ bc ++ "TATGG".data ++ t1 ++ "GTTTA".data ++ v =
      u ++ ("TAGTT".data ++ (bc ++ ("TATGG".data ++ (t1 ++ ("GTTTA".data ++ v))))) := by
    simp [List.append_assoc]
  rw [hs]
  unfold matchPattern1AtLen
  simp only []
  rw [List.drop_left]
  rw [if_pos (isPrefixOf_self_append _ _)]
  rw [append_drop_len ("TAGTT".data) _ 5 rfl]
  rw [append_take_len bc _ 16 hbc]
  rw [if_pos hbc]
  rw [append_drop_len bc _ 16 hbc]
  rw [if_pos (isPrefixOf_self_append _ _)]
  rw [append_drop_len ("TATGG".data) _ 5 rfl]
  rw [List.take_left]
  rw [if_pos rfl]
  rw [List.drop_left]
  rw [if_pos (isPrefixOf_self_append _ _)]

/-- Completeness of the fixed-length matcher for pattern 2. -/
theorem matchPattern2AtLen_complete (u t2 v : List Char) :
    matchPattern2AtLen (u ++ "TGTTG".data ++ t2 ++ "GTTTG".data ++ v)
      u.length t2.length = some t2 := by
  have hs : u ++ "TGTTG".data ++ t2 ++ "GTTTG".data ++ v =
      u ++ ("TGTTG".data ++ (t2 ++ ("GTTTG".data ++ v))) := by
    simp [List.append_assoc]
  rw [hs]
  unfold matchPattern2AtLen
  simp only []
  rw [List.drop_left]
  rw [if_pos (isPrefixOf_self_append _ _)]
  rw [append_drop_len ("TGTTG".data) _ 5 rfl]
  rw [List.take_left]
  rw [if_pos rfl]
  rw [List.drop_left]
  rw [if_pos (isPrefixOf_self_append _ _)]

/-- Search-level soundness for pattern 1. -/
theorem searchPattern1_sound (s bc t1 : List Char)
    (h : searchPattern1 s = some (bc, t1)) :
    bc.length = 16 ∧ 16 ≤ t1.length ∧ t1.length ≤ 21 ∧
    ∃ u v, s = u ++ "TAGTT".data ++ bc ++ "TATGG".data ++ t1 ++ "GTTTA".data ++ v := by
  obtain ⟨p, _, hmat⟩ := exists_of_findSome?_some h
  obtain ⟨L, hL, hfix⟩ := exists_of_findSome?_some hmat
  obtain ⟨h16, hlen, u, v, hdecomp⟩ := matchPattern1AtLen_sound s p L bc t1 hfix
  have hLb : 16 ≤ L ∧ L ≤ 21 := by
    simp only [greedyLens, List.mem_cons, List.not_mem_nil, or_false] at hL
    omega
  exact ⟨h16, by omega, by omega, u, v, hdecomp⟩

/-- Search-level soundness for pattern 2. -/
theorem searchPattern2_sound (s t2 : List Char)
    (h : searchPattern2 s = some t2) :
    16 ≤ t2.length ∧ t2.length ≤ 21 ∧
    ∃ u v, s = u ++ "TGTTG".data ++ t2 ++ "GTTTG".data ++ v := by
  obtain ⟨p, _, hmat⟩ := exists_of_findSome?_some h
  obtain ⟨L, hL, hfix⟩ := exists_of_findSome?_some hmat
  obtain ⟨hlen, u, v, hdecomp⟩ := matchPattern2AtLen_sound s p L t2 hfix
  have hLb : 16 ≤ L ∧ L ≤ 21 := by
    simp only [greedyLens, List.mem_cons, List.not_mem_nil, or_false] at hL
    omega
  exact ⟨by omega, by omega, u, v, hdecomp⟩

/-- Search-level completeness for pattern 1: any subject containing a
well-formed site matches, wherever the site sits (search, not
anchored). -/
theorem searchPattern1_isSome_of_site (u bc t1 v : List Char)
    (hbc : bc.length = 16) (h16 : 16 ≤ t1.length) (h21 : t1.length ≤ 21) :
    (searchPattern1
      (u ++ "TAGTT".data ++ bc ++ "TATGG".data ++ t1 ++ "GTTTA".data ++ v)).isSome := by
  have hfix := matchPattern1AtLen_complete u bc t1 v hbc
  have hmemL : t1.length ∈ greedyLens := by
    simp only [greedyLens, List.mem_cons, List.not_mem_nil, or_false]
    omega
  have hAt := findSome?_isSome_of_mem hmemL hfix
  obtain ⟨b, hb⟩ := Option.isSome_iff_exists.1 hAt
  have hmemP : u.length ∈ List.range
      ((u ++ "TAGTT".data ++ bc ++ "TATGG".data ++ t1 ++ "GTTTA".data ++ v).length + 1) := by
    rw [List.mem_range]
    simp only [List.length_append]
    omega
  exact findSome?_isSome_of_mem hmemP hb

/-- Search-level completeness for pattern 2. -/
theorem searchPattern2_isSome_of_site (u t2 v : List Char)
    (h16 : 16 ≤ t2.length) (h21 : t2.length ≤ 21) :
    (searchPattern2 (u ++ "TGTTG".data ++ t2 ++ "GTTTG".data ++ v)).isSome := by
  have hfix := matchPattern2AtLen_complete u t2 v
  have hmemL : t2.length ∈ greedyLens := by
    simp only [greedyLens, List.mem_cons, List.not_mem_nil, or_false]
    omega
  have hAt := findSome?_isSome_of_mem hmemL hfix
  obtain ⟨b, hb⟩ := Option.isSome_iff_exists.1 hAt
  have hmemP : u.length ∈ List.range
      ((u ++ "TGTTG".data ++ t2 ++ "GTTTG".data ++ v).length + 1) := by
    rw [List.mem_range]
    simp only [List.length_append]
    omega
  exact findSome?_isSome_of_mem hmemP hb

/-- Modelled from the spec: the mate-2 pattern as the claim words it —
fixed 5-character anchor, 16-21-character capture, and a trailing
fixed FOUR-character anchor (`TGTTG(.{16,21})GTTT`) — for comparison
with the source pattern, whose trailing anchor is `GTTTG`. -/
def matchPattern2SpecAtLen (s : List Char) (p L : Nat) : Option (List Char) :=
  let r0 := s.drop p
  if ("TGTTG".data).isPrefixOf r0 then
    let r1 := r0.drop 5
    let t2 := r1.take L
    if t2.length = L then
      if ("GTTT".data).isPrefixOf (r1.drop L) then some t2 else none
    else none
  else none

/-- The spec-worded mate-2 pattern at one position, greedy. -/
def matchPattern2SpecAt (s : List Char) (p : Nat) : Option (List Char) :=
  greedyLens.findSome? (matchPattern2SpecAtLen s p)

/-- The spec-worded mate-2 pattern, leftmost search. -/
def searchPattern2Spec (s : List Char) : Option (List Char) :=
  (List.range (s.length + 1)).findSome? (matchPattern2SpecAt s)

/-- C6 counterexample: the trailing anchor of the mate-2 pattern in
the code is the 5-character `GTTTG`, not a 4-character anchor.  The
concrete string TGTTG + 16 G + GTTT ends in a well-formed 4-character
anchor site, so the claim's pattern matches it, but the code's
pattern does not. -/
theorem c6_counterexample_trailing_anchor :
    ("GTTTG".data).length = 5 ∧ ¬(("GTTTG".data).length = 4) ∧
    searchPattern2 ("TGTTGGGGGGGGGGGGGGGGGGTTT".data) = none ∧
    searchPattern2Spec ("TGTTGGGGGGGGGGGGGGGGGGTTT".data) =
      some ("GGGGGGGGGGGGGGGG".data) :=
  ⟨by decide, by decide, by decide, by decide⟩

/-- C6 (amended): the mate-1 pattern is a fixed 5-character anchor
`TAGTT`, a barcode capture of exactly 16 characters, a fixed
5-character anchor `TATGG`, a tag-1 capture of 16-21 characters, and a
trailing fixed 5-character anchor `GTTTA`; the mate-2 pattern is a
fixed 5-character anchor `TGTTG`, a tag-2 capture of 16-21 characters,
and a trailing fixed FIVE-character anchor `GTTTG` (not 4 characters
as claimed); both are applied by first-occurrence search, matching a
site anywhere in the subject, not only at its start. -/
theorem c6_pattern_structure :
    (∀ s bc t1, searchPattern1 s = some (bc, t1) →
      bc.length = 16 ∧ 16 ≤ t1.length ∧ t1.length ≤ 21 ∧
      ∃ u v, s = u ++ "TAGTT".data ++ bc ++ "TATGG".data ++ t1 ++ "GTTTA".data ++ v)
    ∧ (∀ s t2, searchPattern2 s = some t2 →
      16 ≤ t2.length ∧ t2.length ≤ 21 ∧
      ∃ u v, s = u ++ "TGTTG".data ++ t2 ++ "GTTTG".data ++ v)
    ∧ (∀ u bc t1 v, bc.length = 16 → 16 ≤ t1.length → t1.length ≤ 21 →
      (searchPattern1
        (u ++ "TAGTT".data ++ bc ++ "TATGG".data ++ t1 ++ "GTTTA".data ++ v)).isSome)
    ∧ (∀ u t2 v, 16 ≤ t2.length → t2.length ≤ 21 →
      (searchPattern2 (u ++ "TGTTG".data ++ t2 ++ "GTTTG".data ++ v)).isSome)
    ∧ ("TAGTT".data).length = 5 ∧ ("TATGG".data).length = 5
    ∧ ("GTTTA".data).length = 5 ∧ ("TGTTG".data).length = 5
    ∧ ("GTTTG".data).length = 5 :=
  ⟨searchPattern1_sound, searchPattern2_sound,
   fun u bc t1 v hbc h16 h21 => searchPattern1_isSome_of_site u bc t1 v hbc h16 h21,
   fun u t2 v h16 h21 => searchPattern2_isSome_of_site u t2 v h16 h21,
   by decide, by decide, by decide, by decide, by decide⟩

/-- Witness for the amended C6: both patterns match a site preceded by
junk, demonstrating non-anchored search at concrete inputs. -/
theorem c6_pattern_structure_witness :
    (searchPattern1 ("XX".data ++ "TAGTT".data ++ exBC ++ "TATGG".data ++ exT1 ++
      "GTTTA".data ++ "Z".data)).isSome ∧
    (searchPattern2 ("Y".data ++ "TGTTG".data ++ exT2 ++ "GTTTG".data ++
      "W".data)).isSome :=
  ⟨c6_pattern_structure.2.2.1 "XX".data exBC exT1 "Z".data
      (by decide) (by decide) (by decide),
   c6_pattern_structure.2.2.2.1 "Y".data exT2 "W".data (by decide) (by decide)⟩

/- ---------------------------------------------------------------------
   C2 and C9: the two groupby aggregations.
--------------------------------------------------------------------- -/

/-- Counting one value in a `filterMap` image counts sources mapping
to it. -/
theorem count_filterMap_eq_countP {α β : Type} [DecidableEq β]
    (f : α → Option β) (k : β) :
    ∀ l : List α, (l.filterMap f).count k = l.countP (fun x => f x = some k)
  | [] => rfl
  | a :: l => by
      rw [List.filterMap_cons, List.countP_cons]
      cases ha : f a with
      | none =>
          simp only [ha, count_filterMap_eq_countP f k l]
          simp
      | some b =>
          rw [List.count_cons, count_filterMap_eq_countP f k l]
          simp only [ha, Option.some.injEq]
          by_cases hbk : b = k
          · simp [hbk]
          · simp [hbk]

/-- The complete key is the raw key with the raw barcode forgotten. -/
theorem completeKey?_eq_map_rawKey? (u : UnifiedRow) :
    completeKey? u = (rawKey? u).map rawToComplete := by
  cases h : u.Clonal_barcode_center with
  | none => simp [completeKey?, rawKey?, h]
  | some c => simp [completeKey?, rawKey?, rawToComplete, h]

/-- `filterMap` by the complete key factors through the raw key. -/
theorem filterMap_completeKey?_eq (l : List UnifiedRow) :
    l.filterMap completeKey? = (l.filterMap rawKey?).map rawToComplete := by
  rw [List.map_filterMap]
  apply List.filterMap_congr
  intro u _
  exact completeKey?_eq_map_rawKey? u

/-- Membership in a dedup-count table. -/
theorem dedup_count_mem_iff {β : Type} [DecidableEq β] (L : List β) (k : β) (n : Nat) :
    (k, n) ∈ L.dedup.map (fun x => (x, L.count x)) ↔ (k ∈ L ∧ n = L.count k) := by
  constructor
  · intro h
    obtain ⟨k0, hk0, heq⟩ := List.mem_map.1 h
    rw [Prod.ext_iff] at heq
    obtain ⟨h1, h2⟩ := heq
    subst h1
    exact ⟨List.mem_dedup.1 hk0, h2.symm⟩
  · rintro ⟨hk, rfl⟩
    exact List.mem_map.2 ⟨k, List.mem_dedup.2 hk, rfl⟩

/-- The key column of a dedup-count table has no duplicates. -/
theorem dedup_count_keys_nodup {β : Type} [DecidableEq β] (L : List β) :
    ((L.dedup.map (fun x => (x, L.count x))).map Prod.fst).Nodup := by
  rw [List.map_map]
  have h : (Prod.fst ∘ fun x => (x, L.count x)) = fun x => x := rfl
  rw [h]
  simpa using L.nodup_dedup

/-- The filtered sum of raw frequencies sharing a complete key equals
that key's count in the complete key image. -/
theorem raw_filter_sum_eq_complete_count (l : List UnifiedRow) (k : CompleteKey) :
    (((deduplicated_raw l).filter (fun kn => rawToComplete kn.1 = k)).map
      Prod.snd).sum = (l.filterMap completeKey?).count k := by
  unfold deduplicated_raw
  rw [List.filter_map]
  rw [List.map_map]
  have h1 : ((fun kn => decide (rawToComplete (Prod.fst kn) = k)) ∘
      fun x => (x, (l.filterMap rawKey?).count x)) =
      fun x => decide (rawToComplete x = k) := rfl
  have h2 : (Prod.snd ∘ fun x => (x, (l.filterMap rawKey?).count x)) =
      fun x => (l.filterMap rawKey?).count x := rfl
  rw [h1, h2]
  rw [List.sum_map_count_dedup_filter_eq_countP]
  rw [filterMap_completeKey?_eq]
  rw [List.count_eq_countP, List.countP_map]
  apply List.countP_congr
  intro x _
  by_cases hx : rawToComplete x = k
  · simp [hx]
  · simp [hx, Ne.symm hx]

/-- C2: on any unified per-sample table, the raw aggregation has
exactly one row per distinct raw key tuple, with `Frequency` the
number of unified rows bearing the tuple; and the complete
aggregation has exactly one row per distinct complete key tuple, with
`Frequency` the sum of the Frequencies of the raw rows sharing that
tuple (raw barcodes sharing a cluster center collapse into one summed
row). -/
theorem c2_raw_and_complete_aggregation (l : List UnifiedRow) :
    ((deduplicated_raw l).map Prod.fst).Nodup
    ∧ (∀ k n, (k, n) ∈ deduplicated_raw l ↔
        (∃ u ∈ l, rawKey? u = some k) ∧
          n = l.countP (fun u => rawKey? u = some k))
    ∧ ((deduplicated_complete l).map Prod.fst).Nodup
    ∧ (∀ k m, (k, m) ∈ deduplicated_complete l ↔
        (∃ u ∈ l, completeKey? u = some k) ∧
          m = (((deduplicated_raw l).filter
              (fun kn => rawToComplete kn.1 = k)).map Prod.snd).sum) := by
  refine ⟨dedup_count_keys_nodup _, fun k n => ?_, dedup_count_keys_nodup _,
    fun k m => ?_⟩
  · rw [show deduplicated_raw l =
        (l.filterMap rawKey?).dedup.map
          (fun x => (x, (l.filterMap rawKey?).count x)) from rfl]
    rw [dedup_count_mem_iff, List.mem_filterMap,
      count_filterMap_eq_countP]
  · rw [show deduplicated_complete l =
        (l.filterMap completeKey?).dedup.map
          (fun x => (x, (l.filterMap completeKey?).count x)) from rfl]
    rw [dedup_count_mem_iff, List.mem_filterMap,
      raw_filter_sum_eq_complete_count]

/-- Two unified rows sharing one cluster center but differing in the
raw barcode. -/
def c2u1 : UnifiedRow :=
  ⟨"A".data, some "C".data, "r1".data, "g".data, "h".data, "S".data,
    "Expected".data, "k".data⟩

/-- Second unified row of the concrete aggregation example. -/
def c2u2 : UnifiedRow :=
  ⟨"B".data, some "C".data, "r2".data, "g".data, "h".data, "S".data,
    "Expected".data, "k".data⟩

/-- Witness for C2: on the two-row example the complete aggregation
holds one row for the shared tuple with frequency 2, the sum of the
two raw rows' frequencies. -/
theorem c2_raw_and_complete_aggregation_witness :
    ((⟨"k".data, "C".data, "g".data, "h".data, "S".data⟩ : CompleteKey), 2) ∈
      deduplicated_complete [c2u1, c2u2] :=
  ((c2_raw_and_complete_aggregation [c2u1, c2u2]).2.2.2
      ⟨"k".data, "C".data, "g".data, "h".data, "S".data⟩ 2).mpr
    ⟨⟨c2u1, by decide, by decide⟩, by decide⟩

/-- `filterMap` ignores elements on which it returns `none`, so
filtering them away first changes nothing. -/
theorem filterMap_eq_filterMap_filter {α β : Type} (f : α → Option β)
    (p : α → Bool) (h : ∀ x, p x = false → f x = none) :
    ∀ l : List α, l.filterMap f = (l.filter p).filterMap f
  | [] => rfl
  | a :: l => by
      rw [List.filterMap_cons, List.filter_cons]
      by_cases hp : p a = true
      · rw [if_pos hp, List.filterMap_cons]
        cases hfa : f a <;>
          simp [hfa, filterMap_eq_filterMap_filter f p h l]
      · rw [if_neg hp, h a (by revert hp; cases p a <;> simp)]
        exact filterMap_eq_filterMap_filter f p h l

/-- The size of a `filterMap` image counts the successes. -/
theorem length_filterMap_eq_countP {α β : Type} (f : α → Option β) :
    ∀ l : List α, (l.filterMap f).length = l.countP (fun x => (f x).isSome)
  | [] => rfl
  | a :: l => by
      rw [List.filterMap_cons, List.countP_cons]
      cases ha : f a <;> simp [length_filterMap_eq_countP f l, ha]

/-- C9: a unified row whose cluster-center field is null is silently
excluded from both aggregations — its key is `none` for both grouping
strategies, both outputs are unchanged by deleting all such rows, and
the total of the raw Frequencies counts exactly the rows with a
non-null center (null-center reads are counted in neither output). -/
theorem c9_null_center_rows_counted_nowhere (l : List UnifiedRow) :
    (∀ u ∈ l, u.Clonal_barcode_center = none →
      rawKey? u = none ∧ completeKey? u = none)
    ∧ deduplicated_raw l =
        deduplicated_raw (l.filter (fun u => u.Clonal_barcode_center.isSome))
    ∧ deduplicated_complete l =
        deduplicated_complete (l.filter (fun u => u.Clonal_barcode_center.isSome))
    ∧ ((deduplicated_raw l).map Prod.snd).sum =
        l.countP (fun u => u.Clonal_barcode_center.isSome) := by
  have hraw : ∀ x : UnifiedRow,
      (fun u : UnifiedRow => u.Clonal_barcode_center.isSome) x = false →
      rawKey? x = none := by
    intro x hx
    cases hc : x.Clonal_barcode_center with
    | none => simp [rawKey?, hc]
    | some c => simp [hc] at hx
  have hcomp : ∀ x : UnifiedRow,
      (fun u : UnifiedRow => u.Clonal_barcode_center.isSome) x = false →
      completeKey? x = none := by
    intro x hx
    cases hc : x.Clonal_barcode_center with
    | none => simp [completeKey?, hc]
    | some c => simp [hc] at hx
  refine ⟨?_, ?_, ?_, ?_⟩
  · intro u _ hc
    constructor
    · simp [rawKey?, hc]
    · simp [completeKey?, hc]
  · unfold deduplicated_raw
    rw [← filterMap_eq_filterMap_filter rawKey? _ hraw l]
  · unfold deduplicated_complete
    rw [← filterMap_eq_filterMap_filter completeKey? _ hcomp l]
  · unfold deduplicated_raw
    rw [List.map_map]
    have h2 : (Prod.snd ∘ fun x => (x, (l.filterMap rawKey?).count x)) =
        fun x => (l.filterMap rawKey?).count x := rfl
    rw [h2, List.sum_map_count_dedup_eq_length, length_filterMap_eq_countP]
    apply List.countP_congr
    intro u _
    cases hc : u.Clonal_barcode_center <;> simp [rawKey?, hc]

/-- A unified row with a null cluster center, for the C9 witness. -/
def c9u : UnifiedRow :=
  ⟨"D".data, none, "r0".data, "g".data, "h".data, "S".data,
    "Expected".data, "k".data⟩

/-- Witness for C9 at a concrete table holding one null-center row. -/
theorem c9_null_center_witness :
    rawKey? c9u = none ∧ completeKey? c9u = none :=
  (c9_null_center_rows_counted_nowhere [c9u, c2u1]).1 c9u (by decide) (by decide)

/- ---------------------------------------------------------------------
   C4: a Barcode Entry with no matching Cluster Entry.
--------------------------------------------------------------------- -/

/-- Removing an element that contributes nothing leaves a `flatMap`
unchanged. -/
theorem flatMap_erase_of_nil {α β : Type} [DecidableEq α] (f : α → List β)
    (a : α) (hf : f a = []) :
    ∀ l : List α, l.flatMap f = (l.erase a).flatMap f
  | [] => rfl
  | x :: l => by
      rw [List.erase_cons]
      by_cases hx : x = a
      · rw [if_pos (by simp [hx]), List.flatMap_cons, hx, hf, List.nil_append]
      · rw [if_neg (by simp [hx]), List.flatMap_cons, List.flatMap_cons,
          ← flatMap_erase_of_nil f a hf l]

/-- C4: a Barcode Entry whose cluster identifier matches no Cluster
Entry is dropped by the Step-1 inner join: the join result, the
unified table built from any surrounding partition list, and both
frequency tables are identical with and without that entry — the
entry appears in no downstream Unified Row and in no row of either
frequency table. -/
theorem c4_unmatched_barcode_entry_invisible (b : BarcodeEntry)
    (bdf : List BarcodeEntry) (cdf : List ClusterEntry)
    (bart : List BartenderRow) (parts1 parts2 : List SamplePart)
    (ref : List FinalRow) (_hb : b ∈ bdf)
    (hnomatch : ∀ c ∈ cdf, c.ClusterID ≠ b.ClusterID) :
    innerJoinBarcodeCluster bdf cdf =
      innerJoinBarcodeCluster (bdf.erase b) cdf
    ∧ unifiedTable (parts1 ++ ⟨bdf, cdf, bart⟩ :: parts2) ref =
        unifiedTable (parts1 ++ ⟨bdf.erase b, cdf, bart⟩ :: parts2) ref
    ∧ deduplicated_raw
        (unifiedTable (parts1 ++ ⟨bdf, cdf, bart⟩ :: parts2) ref) =
      deduplicated_raw
        (unifiedTable (parts1 ++ ⟨bdf.erase b, cdf, bart⟩ :: parts2) ref)
    ∧ deduplicated_complete
        (unifiedTable (parts1 ++ ⟨bdf, cdf, bart⟩ :: parts2) ref) =
      deduplicated_complete
        (unifiedTable (parts1 ++ ⟨bdf.erase b, cdf, bart⟩ :: parts2) ref) := by
  have hfb : (fun bb : BarcodeEntry =>
      cdf.filterMap (fun c =>
        if bb.ClusterID = c.ClusterID then
          some (⟨bb.UniqueReads, c.Center⟩ : Step1Row) else none)) b = [] := by
    simp only [List.filterMap_eq_nil_iff]
    intro c hc
    rw [if_neg (fun he => hnomatch c hc he.symm)]
  have hstep1 : innerJoinBarcodeCluster bdf cdf =
      innerJoinBarcodeCluster (bdf.erase b) cdf := by
    unfold innerJoinBarcodeCluster
    exact flatMap_erase_of_nil _ b hfb bdf
  have hmerge : merge_barcode_and_sgRNA_output bdf cdf bart =
      merge_barcode_and_sgRNA_output (bdf.erase b) cdf bart := by
    unfold merge_barcode_and_sgRNA_output
    rw [hstep1]
  have hunif : unifiedTable (parts1 ++ ⟨bdf, cdf, bart⟩ :: parts2) ref =
      unifiedTable (parts1 ++ ⟨bdf.erase b, cdf, bart⟩ :: parts2) ref := by
    unfold unifiedTable
    rw [List.map_append, List.map_append, List.map_cons, List.map_cons]
    simp only []
    rw [hmerge]
  exact ⟨hstep1, hunif, by rw [hunif], by rw [hunif]⟩

/-- Witness for C4 at a one-entry barcode table whose cluster id 1 has
no match in the cluster table (which holds only id 2). -/
theorem c4_unmatched_barcode_entry_witness :
    innerJoinBarcodeCluster [⟨"A".data, 1⟩] [⟨2, "C".data⟩] =
      innerJoinBarcodeCluster ([(⟨"A".data, 1⟩ : BarcodeEntry)].erase
        ⟨"A".data, 1⟩) [⟨2, "C".data⟩] :=
  (c4_unmatched_barcode_entry_invisible ⟨"A".data, 1⟩ [⟨"A".data, 1⟩]
    [⟨2, "C".data⟩] [⟨"A".data, "r1".data⟩] [] []
    [⟨"g".data, "h".data, "A".data, "r1".data, "S".data, "Expected".data,
      "k".data⟩]
    (by decide) (by decide)).1

/- ---------------------------------------------------------------------
   C7: the cross-sample combiner round trip.
--------------------------------------------------------------------- -/

/-- C7: over samples with pairwise-distinct identifiers whose complete
tables carry their own identifier in every row, filtering the
concatenated cross-sample table by one sample's identifier returns
exactly that sample's own complete table (here even with its row
order, which implies the order-insensitive claim); the combiner only
concatenates. -/
theorem c7_concat_filter_roundtrip
    (tables : List (List Char × List (CompleteKey × Nat)))
    (hnd : (tables.map Prod.fst).Nodup)
    (hown : ∀ t ∈ tables, ∀ row ∈ t.2, row.1.Sample_ID = t.1)
    (X : List Char) (tX : List (CompleteKey × Nat)) (hX : (X, tX) ∈ tables) :
    (crossSampleCombine (tables.map Prod.snd)).filter
      (fun row => row.1.Sample_ID = X) = tX := by
  induction tables with
  | nil => exact absurd hX (List.not_mem_nil _)
  | cons t ts ih =>
      have hcomb : crossSampleCombine ((t :: ts).map Prod.snd) =
          t.2 ++ crossSampleCombine (ts.map Prod.snd) := by
        unfold crossSampleCombine
        rw [List.map_cons, List.flatten_cons]
      rw [hcomb, List.filter_append]
      rcases List.mem_cons.1 hX with heq | hX'
      · have ht1 : t.1 = X := by rw [← heq]
        have ht2 : t.2 = tX := by rw [← heq]
        have hkeep : t.2.filter (fun row => row.1.Sample_ID = X) = t.2 := by
          apply List.filter_eq_self.2
          intro row hrow
          simp only [decide_eq_true_eq]
          rw [hown t (List.mem_cons_self t ts) row hrow, ht1]
        have hdropall : (crossSampleCombine (ts.map Prod.snd)).filter
            (fun row => row.1.Sample_ID = X) = [] := by
          apply List.filter_eq_nil_iff.2
          intro row hrow
          simp only [decide_eq_true_eq]
          obtain ⟨part, hpart, hrowpart⟩ := by
            unfold crossSampleCombine at hrow
            exact List.mem_flatten.1 hrow
          obtain ⟨t', ht', rfl⟩ := List.mem_map.1 hpart
          rw [hown t' (List.mem_cons_of_mem t ht') row hrowpart]
          intro hT
          have hXmem : X ∈ ts.map Prod.fst := by
            rw [← hT]
            exact List.mem_map.2 ⟨t', ht', rfl⟩
          rw [← ht1] at hXmem
          exact (List.nodup_cons.1 hnd).1 hXmem
        rw [hkeep, hdropall, List.append_nil, ht2]
      · have ht1 : t.1 ≠ X := by
          intro hT
          have hXmem : X ∈ ts.map Prod.fst := List.mem_map.2 ⟨(X, tX), hX', rfl⟩
          rw [← hT] at hXmem
          exact (List.nodup_cons.1 hnd).1 hXmem
        have hdrop : t.2.filter (fun row => row.1.Sample_ID = X) = [] := by
          apply List.filter_eq_nil_iff.2
          intro row hrow
          simp only [decide_eq_true_eq]
          rw [hown t (List.mem_cons_self t ts) row hrow]
          exact ht1
        rw [hdrop, List.nil_append]
        exact ih (List.nodup_cons.1 hnd).2
          (fun t' ht' => hown t' (List.mem_cons_of_mem t ht')) hX'

/-- A one-row complete table for sample `S`, for the C7 witness. -/
def c7tS : List (CompleteKey × Nat) :=
  [(⟨"k".data, "C".data, "g".data, "h".data, "S".data⟩, 2)]

/-- A one-row complete table for sample `T`, for the C7 witness. -/
def c7tT : List (CompleteKey × Nat) :=
  [(⟨"k".data, "C".data, "g".data, "h".data, "T".data⟩, 1)]

/-- Witness for C7 on two concrete samples. -/
theorem c7_concat_filter_roundtrip_witness :
    (crossSampleCombine ([("S".data, c7tS), ("T".data, c7tT)].map Prod.snd)).filter
      (fun row => row.1.Sample_ID = "T".data) = c7tT :=
  c7_concat_filter_roundtrip [("S".data, c7tS), ("T".data, c7tT)]
    (by decide) (by decide) "T".data c7tT (by decide)
